import Mathlib

/-!
Verification development for the ai-way conversational core
(`src/core/session.py`, `src/core/conductor.py`).

The Python modules are shallowly embedded below:

* `Json` models the dynamic (JSON-like) values that flow through
  `Session.to_dict` / `Session.from_dict` and the snapshot file;
* `Session`, `Turn`, `RoutingDecision` mirror the dataclasses of
  `session.py` (wall-clock timestamps are modelled as their ISO strings;
  floats are modelled as exact rationals, which the properties checked
  here do not distinguish from IEEE doubles);
* the `SessionManager` store is an insertion-ordered association list
  (a Python dict with string keys), and Python exceptions that matter
  to the load path are made explicit with `Except PyErr`;
* the Conductor is embedded with an explicit backend oracle: every
  Ollama `generate`/`chat` call is recorded in an `OllamaCall` trace,
  and the session state is threaded through every sub-operation so that
  frame (non-mutation) properties are expressible.

Python regular-expression extraction in `_parse_routing_response` is
modelled character-exactly for ASCII inputs, including the backtracking
behaviour of `\s*` against `(.+?)(?:\n|$)`.
-/

/-! ## Small Python-flavoured string utilities -/

/-- The characters matched by the regex class `\s` (ASCII part): space, tab,
newline, carriage return, vertical tab, form feed. -/
def pySpace (c : Char) : Bool :=
  c == ' ' || c == '\t' || c == '\n' || c == '\r' || c == '\x0b' || c == '\x0c'

/-- Python `str.strip()` on a character list: drop whitespace at both ends. -/
def pyStrip (cs : List Char) : List Char :=
  ((cs.dropWhile pySpace).reverse.dropWhile pySpace).reverse

/-- Case-insensitive literal prefix match (the pattern is given lowercased):
models matching a literal such as `AGENT:` under `re.IGNORECASE`. -/
def matchCI : List Char → List Char → Bool
  | [], _ => true
  | _ :: _, [] => false
  | p :: ps, c :: cs => (c.toLower == p) && matchCI ps cs

/-- Python substring containment `needle in hay` on character lists. -/
def isSubstr (needle hay : List Char) : Bool :=
  hay.tails.any (fun t => needle.isPrefixOf t)

/-- One apostrophe, as a string (written via its code point). -/
def apos : String := String.singleton (Char.ofNat 39)

/-! ## Dynamic values and Python exceptions -/

/-- A JSON-like dynamic value: what `json.loads` produces and what the
`Any`-typed fields of `Session` hold.  Objects are insertion-ordered
association lists, as Python dicts are.  `int` and `num` are kept apart
because Python keeps `int` and `float` apart. -/
inductive Json where
  | null
  | bool (b : Bool)
  | str (s : String)
  | int (n : Int)
  | num (q : ℚ)
  | arr (elems : List Json)
  | obj (fields : List (String × Json))

/-- The Python exceptions that are relevant to the snapshot load path of
`SessionManager._load_sessions` (`session.py` lines 278–288). -/
inductive PyErr where
  | keyError
  | typeError
  | valueError
  | attributeError
deriving DecidableEq

/-- Python truthiness of a JSON-like value (`if turn_data.get("routing"):`). -/
def jsonTruthy : Json → Bool
  | .null => false
  | .bool b => b
  | .str s => !(s.isEmpty)
  | .int n => n != 0
  | .num q => q != 0
  | .arr es => !(es.isEmpty)
  | .obj fs => !(fs.isEmpty)

/-- Python subscript `j[k]` on a dynamic value: `KeyError` for a missing key
of a dict, `TypeError` when the value is not a dict at all. -/
def getItem (j : Json) (k : String) : Except PyErr Json :=
  match j with
  | .obj fields =>
      match fields.lookup k with
      | some v => .ok v
      | none => .error .keyError
  | _ => .error .typeError

/-- Python `dict.get(k, default)` restricted to the object case; the load
path only reaches `.get` on values that were already subscripted, hence
are dicts. -/
def pyGetD (j : Json) (k : String) (d : Json) : Json :=
  match j with
  | .obj fields => (fields.lookup k).getD d
  | _ => d

/-- Python `str(value)`-style coercion used where the code stores a value
into a `str`-typed field without checking.  Only the `.str` case is ever
exercised by the claims checked here. -/
def pyAsStr : Json → String
  | .str s => s
  | _ => ""

/-- Coercion into an `int`-typed field (`tokens_used`); only `.int` occurs
on the paths the claims exercise. -/
def pyAsInt : Json → Int
  | .int n => n
  | _ => 0

/-- Coercion into a `float`-typed field (`confidence`, `latency_ms`);
Python happily stores an `int` in a float slot, hence the `.int` case. -/
def pyAsRat : Json → ℚ
  | .num q => q
  | .int n => (n : ℚ)
  | _ => 0

/-- Decode the `active_surface` slot: `to_dict` writes `None` or a string. -/
def pyAsOptStr : Json → Option String
  | .str s => some s
  | _ => none

/-- Decode a dict-valued slot (`context`, `preferences`) back into an
insertion-ordered association list. -/
def pyAsObjFields : Json → List (String × Json)
  | .obj fs => fs
  | _ => []

/-- Decode a list-valued slot (`turns`); iterating a non-list in the way
`from_dict` does would not produce dicts, so it is folded into `TypeError`
(the nearest uncaught outcome). -/
def pyAsList : Json → Except PyErr (List Json)
  | .arr es => .ok es
  | _ => .error .typeError

/-- Embeds `datetime.fromisoformat` applied to a dynamic value: a non-string
argument raises `TypeError`.  String validity checking is modelled as
always succeeding (the claims settled here never depend on rejecting a
malformed timestamp string), so a timestamp is its ISO text. -/
def fromIso : Json → Except PyErr String
  | .str s => .ok s
  | _ => .error .typeError

/-! ## The data model of `session.py` -/

/-- Embeds `RoutingDecision` (`session.py` lines 19–25); the wall-clock
`timestamp` field - which `to_dict` does not serialize - is not
modelled. -/
structure RoutingDecision where
  agent : String
  confidence : ℚ
  reasoning : String
deriving DecidableEq

/-- Embeds `ChatMessage` (`ollama_client.py` lines 27–31). -/
structure ChatMessage where
  role : String
  content : String
deriving DecidableEq

/-- Embeds `Turn` (`session.py` lines 28–36); `timestamp` is its ISO string. -/
structure Turn where
  user_message : String
  assistant_response : String
  routing : Option RoutingDecision
  tokens_used : Int
  latency_ms : ℚ
  timestamp : String
deriving DecidableEq

/-- Embeds `Session` (`session.py` lines 39–66); `created_at` is its ISO string,
and the `Any`-typed `context`/`preferences` dicts are insertion-ordered
association lists of dynamic values. -/
structure Session where
  id : String
  created_at : String
  turns : List Turn
  context : List (String × Json)
  active_surface : Option String
  preferences : List (String × Json)
  detected_mood : String

/-- Embeds `str(value)` as used in the f-strings of `get_context_summary`.
The container cases are abbreviated renderings; no claim checked here
evaluates them. -/
def pyStr : Json → String
  | .str s => s
  | .int n => toString n
  | .num q => toString q
  | .bool true => "True"
  | .bool false => "False"
  | .null => "None"
  | .arr _ => "[...]"
  | .obj _ => "\x7b...\x7d"

/-- Embeds `Session.get_chat_history` (`session.py` lines 87–104).  `max_turns`
is modelled as a natural number; Python slicing `turns[-m:]` for `m > 0`
is `drop (length - m)`, and `if max_turns` is false exactly at `0`.
`turnMessages` is the pair of messages one loop iteration appends. -/
def turnMessages (turn : Turn) : List ChatMessage :=
  [⟨"user", turn.user_message⟩, ⟨"assistant", turn.assistant_response⟩]

def get_chat_history (s : Session) (max_turns : Nat) : List ChatMessage :=
  let recent_turns :=
    if max_turns != 0 then s.turns.drop (s.turns.length - max_turns) else s.turns
  recent_turns.foldl (fun messages turn => messages ++ turnMessages turn) []

/-- The first `parts` block of `get_context_summary` (`session.py` lines
116–121): header plus the last three turns, user and assistant text each
cut at 100 characters and suffixed with an ellipsis marker. -/
def turnsSection (s : Session) : List String :=
  if s.turns.isEmpty then [] else
    "Recent conversation:" ::
      (s.turns.drop (s.turns.length - 3)).flatMap
        (fun turn =>
          ["  User: " ++ turn.user_message.take 100 ++ "...",
           "  Assistant: " ++ turn.assistant_response.take 100 ++ "..."])

/-- The second `parts` block (`session.py` lines 124–127): context items
in insertion order. -/
def contextSection (s : Session) : List String :=
  if s.context.isEmpty then [] else
    "\nContext:" :: s.context.map (fun kv => "  " ++ kv.1 ++ ": " ++ pyStr kv.2)

/-- The third `parts` block (`session.py` lines 130–133): preferences in
insertion order. -/
def prefsSection (s : Session) : List String :=
  if s.preferences.isEmpty then [] else
    "\nUser preferences:" :: s.preferences.map (fun kv => "  " ++ kv.1 ++ ": " ++ pyStr kv.2)

/-- The fourth `parts` block (`session.py` lines 136–137): the detected
mood, only when not the `"neutral"` default. -/
def moodSection (s : Session) : List String :=
  if s.detected_mood == "neutral" then [] else
    ["\nDetected mood: " ++ s.detected_mood]

/-- Embeds `Session.get_context_summary` (`session.py` lines 106–139): the four
`parts.append` blocks run in order, then `"\n".join(parts)`. -/
def get_context_summary (s : Session) : String :=
  let parts : List String := []
  let parts := parts ++ turnsSection s
  let parts := parts ++ contextSection s
  let parts := parts ++ prefsSection s
  let parts := parts ++ moodSection s
  String.intercalate "\n" parts

/-- Embeds `Session.total_tokens` (`session.py` lines 149–152). -/
def total_tokens (s : Session) : Int :=
  (s.turns.map (fun t => t.tokens_used)).sum

/-- Embeds `Session.total_turns` (`session.py` lines 154–157). -/
def total_turns (s : Session) : Nat :=
  s.turns.length

/-! ## Serialization (`to_dict` / `from_dict`, `session.py` lines 159–215) -/

/-- The `"routing"` slot written by `to_dict`: a three-field dict, or
`None` when the turn has no routing record. -/
def encodeRouting : Option RoutingDecision → Json
  | some r => .obj [("agent", .str r.agent), ("confidence", .num r.confidence),
                    ("reasoning", .str r.reasoning)]
  | none => .null

/-- One turn dict as written by `to_dict` (`session.py` lines 165–176),
keys in source order. -/
def encodeTurn (t : Turn) : Json :=
  .obj [("user_message", .str t.user_message),
        ("assistant_response", .str t.assistant_response),
        ("routing", encodeRouting t.routing),
        ("tokens_used", .int t.tokens_used),
        ("latency_ms", .num t.latency_ms),
        ("timestamp", .str t.timestamp)]

/-- Embeds `Session.to_dict` (`session.py` lines 159–183), keys in source order. -/
def to_dict (s : Session) : Json :=
  .obj [("id", .str s.id),
        ("created_at", .str s.created_at),
        ("turns", .arr (s.turns.map encodeTurn)),
        ("context", .obj s.context),
        ("preferences", .obj s.preferences),
        ("detected_mood", .str s.detected_mood),
        ("active_surface", match s.active_surface with
          | some v => .str v
          | none => .null)]

/-- One iteration of the turns loop of `from_dict` (`session.py` lines
197–213).  The truthiness test on `turn_data.get("routing")` runs first,
then the `Turn(...)` keyword arguments are evaluated left to right; a
non-dict turn record fails on `.get` with `AttributeError`. -/
def decodeTurn (j : Json) : Except PyErr Turn :=
  match j with
  | .obj fields => do
      let routingJ := (fields.lookup "routing").getD .null
      let routing ←
        if jsonTruthy routingJ then do
          let a ← getItem routingJ "agent"
          let c ← getItem routingJ "confidence"
          let r ← getItem routingJ "reasoning"
          pure (some ⟨pyAsStr a, pyAsRat c, pyAsStr r⟩)
        else
          pure none
      let um ← getItem j "user_message"
      let ar ← getItem j "assistant_response"
      let tk := pyGetD j "tokens_used" (.int 0)
      let lm := pyGetD j "latency_ms" (.num 0)
      let tsJ ← getItem j "timestamp"
      let ts ← fromIso tsJ
      .ok ⟨pyAsStr um, pyAsStr ar, routing, pyAsInt tk, pyAsRat lm, ts⟩
  | _ => .error .attributeError

/-- Embeds `Session.from_dict` (`session.py` lines 185–215).  Subscripts that can
raise run in Python evaluation order: `data["id"]`, then
`fromisoformat(data["created_at"])`, then the defaulted `.get` reads,
then the turns loop. -/
def from_dict (j : Json) : Except PyErr Session := do
  let idJ ← getItem j "id"
  let caJ ← getItem j "created_at"
  let ca ← fromIso caJ
  let ctx := pyGetD j "context" (.obj [])
  let prefs := pyGetD j "preferences" (.obj [])
  let mood := pyGetD j "detected_mood" (.str "neutral")
  let surf := pyGetD j "active_surface" .null
  let turnsJ := pyGetD j "turns" (.arr [])
  let turnsL ← pyAsList turnsJ
  let turns ← turnsL.mapM decodeTurn
  .ok { id := pyAsStr idJ, created_at := ca, turns := turns,
        context := pyAsObjFields ctx, active_surface := pyAsOptStr surf,
        preferences := pyAsObjFields prefs, detected_mood := pyAsStr mood }

/-! ## The session store (`SessionManager`, `session.py` lines 218–288)

The store `_sessions` is an insertion-ordered dict from session id to
`Session`, modelled as an association list whose keys a running manager
keeps free of duplicates. -/

/-- What `_load_sessions` finds: no file at the persist path, a file whose
text `json.loads` rejects (`JSONDecodeError`), or a parsed value. -/
inductive Snapshot where
  | missing
  | malformedText
  | content (j : Json)

/-- Embeds `SessionManager.delete_session` (`session.py` lines 248–259): `True`
and removal when the id is present, `False` and no change otherwise.
(The write-through to disk that the method also performs is
`save_sessions` below and does not affect the returned store.) -/
def delete_session (store : List (String × Session)) (session_id : String) :
    Bool × List (String × Session) :=
  if (store.lookup session_id).isSome then
    (true, store.filter (fun kv => kv.1 != session_id))
  else
    (false, store)

/-- Embeds `SessionManager.list_sessions` (`session.py` lines 257–259). -/
def list_sessions (store : List (String × Session)) : List Session :=
  store.map (fun kv => kv.2)

/-- The snapshot value `_save_sessions` serializes (`session.py` lines
266–276): every live session keyed by its id. -/
def save_sessions (store : List (String × Session)) : Json :=
  .obj (store.map (fun kv => (kv.1, to_dict kv.2)))

/-- The `for session_id, session_data in data.items()` loop of
`_load_sessions`, with the surrounding `try` made explicit: a `KeyError`
from `from_dict` is caught (warning only) and the sessions assigned so
far stay in the store; any other exception escapes the method. -/
def loadLoop :
    List (String × Json) → List (String × Session) →
      Except PyErr (List (String × Session))
  | [], acc => .ok acc
  | (sid, sj) :: rest, acc =>
      match from_dict sj with
      | .ok s => loadLoop rest (acc ++ [(sid, s)])
      | .error .keyError => .ok acc
      | .error e => .error e

/-- Embeds `SessionManager._load_sessions` (`session.py` lines 278–288) together
with the guard in `__init__`: a missing file leaves the store empty; a
`json.JSONDecodeError` is caught (warning only, empty store); a parsed
value that is not a dict fails on `.items()` with an uncaught
`AttributeError`; otherwise the entries are loaded one by one. -/
def load_sessions : Snapshot → Except PyErr (List (String × Session))
  | .missing => .ok []
  | .malformedText => .ok []
  | .content j =>
      match j with
      | .obj entries => loadLoop entries []
      | _ => .error .attributeError

/-! ## Routing-reply extraction (`conductor.py` lines 110–133)

The three `re.search` calls are modelled character-exactly for ASCII
text: a leftmost scan over start positions, with the per-position match
of each pattern worked out below (including where backtracking of a
greedy `\s*` can and cannot help). -/

/-- Per-position match of `AGENT:\s*(\S+)` (case-insensitive).  After the
literal, `\s*` greedily eats whitespace and `(\S+)` takes the maximal
non-whitespace run; giving whitespace back from `\s*` can never help
`\S+`, whose first character must be non-whitespace, so the match at
this position succeeds exactly when a non-empty token follows the
whitespace run. -/
def agentAt (cs : List Char) : Option (List Char) :=
  if matchCI (("agent:").data) cs then
    let tok := ((cs.drop 6).dropWhile pySpace).takeWhile (fun c => !(pySpace c))
    if tok.isEmpty then none else some tok
  else none

/-- Per-position match of `CONFIDENCE:\s*([\d.]+)` (case-insensitive);
same shape as `agentAt` with the class `[\d.]`, which is also disjoint
from `\s`, so again backtracking of `\s*` never helps. -/
def confAt (cs : List Char) : Option (List Char) :=
  if matchCI (("confidence:").data) cs then
    let tok := ((cs.drop 11).dropWhile pySpace).takeWhile (fun c => c.isDigit || c == '.')
    if tok.isEmpty then none else some tok
  else none

/-- Per-position match of `REASON:\s*(.+?)(?:\n|$)` (case-insensitive, no
DOTALL, so `.` excludes newlines).  With `\s*` at its greedy maximum, the
lazy `(.+?)` takes the rest of the line following the whitespace run -
this succeeds whenever that rest is non-empty.  When the whole remainder
is whitespace, the engine backtracks `\s*` from the right; the first
position whose character is not a newline starts a 1-character group
(every later character is a newline, satisfying `(?:\n|$)`), so the
group is the last non-newline whitespace character, if any. -/
def reasonAt (cs : List Char) : Option (List Char) :=
  if matchCI (("reason:").data) cs then
    let rest := cs.drop 7
    let t := rest.dropWhile pySpace
    if !(t.isEmpty) then
      some (t.takeWhile (fun c => c != '\n'))
    else
      match rest.reverse.find? (fun c => c != '\n') with
      | some c => some [c]
      | none => none
  else none

/-- Leftmost `re.search` scan: try the per-position matcher at every
start position, left to right. -/
def scanFor (tryAt : List Char → Option (List Char)) : List Char → Option (List Char)
  | [] => tryAt []
  | c :: rest =>
      match tryAt (c :: rest) with
      | some g => some g
      | none => scanFor tryAt rest

/-- `re.search` for the `AGENT` line. -/
def searchAgentTag (cs : List Char) : Option (List Char) := scanFor agentAt cs

/-- `re.search` for the `CONFIDENCE` line. -/
def searchConfTag (cs : List Char) : Option (List Char) := scanFor confAt cs

/-- `re.search` for the `REASON` line. -/
def searchReasonTag (cs : List Char) : Option (List Char) := scanFor reasonAt cs

/-- Python `float(text)` on a `[\d.]+` capture: accepted iff the text has
at most one dot and at least one digit; the value is exact here (the
claims checked never distinguish a rational from its double rounding). -/
def pyFloat (cs : List Char) : Option ℚ :=
  let intPart := cs.takeWhile (fun c => c != '.')
  let rest := cs.drop intPart.length
  let natVal := fun (ds : List Char) => ds.foldl (fun a c => 10 * a + (c.toNat - 48)) (0 : Nat)
  match rest with
  | [] => if cs.isEmpty then none else some ((natVal intPart : Nat) : ℚ)
  | _ :: frac =>
      if frac.any (fun c => c == '.') then none
      else if intPart.isEmpty && frac.isEmpty then none
      else some ((natVal intPart : Nat) + ((natVal frac : Nat) : ℚ) / (10 : ℚ) ^ frac.length)

/-! ## The Conductor (`conductor.py`) -/

/-- Embeds `AgentProfile` (`loader.py` lines 14–35); `filepath` is its string.
Only `name`, `category` and `role` feed the conductor. -/
structure AgentProfile where
  name : String
  category : String
  filepath : String
  role : String := ""
  expertise : List String := []
  personality_traits : List String := []
  responsibilities : List String := []
  working_style : List String := []
  use_cases : List String := []
  collaboration_style : List String := []
  red_flags : List String := []
  philosophy : String := ""
  raw_content : String := ""
deriving DecidableEq

/-- Embeds `ConductorConfig` (`conductor.py` lines 19–26).  The Python field
`default_agent_model_prefix` is named `agent_model_stem` here. -/
structure ConductorConfig where
  conductor_model : String := "ai-way-yollayah"
  agent_model_stem : String := "ai-way-"
  max_context_turns : Nat := 10
  routing_temperature : ℚ := 3 / 10
  response_temperature : ℚ := 8 / 10

/-- The `Conductor` state (`conductor.py` lines 51–62): the agents dict
in insertion order, plus configuration. -/
structure Conductor where
  agents : List (String × AgentProfile)
  config : ConductorConfig

/-- Python dict insert (`d[k] = v`): replace in place when the key
exists, else append. -/
def dictInsert (d : List (String × AgentProfile)) (k : String) (v : AgentProfile) :
    List (String × AgentProfile) :=
  if (d.lookup k).isSome then
    d.map (fun kv => if kv.1 == k then (k, v) else kv)
  else
    d ++ [(k, v)]

/-- Builds the dict of `Conductor.__init__`: `self.agents = \x7ba.name: a for a in agents\x7d`. -/
def mkAgents (agents : List AgentProfile) : List (String × AgentProfile) :=
  agents.foldl (fun d a => dictInsert d a.name a) []

/-- One catalog line of `_build_agent_catalog` (`conductor.py` lines
64–71): the role cut at 150 characters with an ellipsis when longer. -/
def catalogLine (kv : String × AgentProfile) : String :=
  let role := if kv.2.role.length > 150 then kv.2.role.take 150 ++ "..." else kv.2.role
  "- " ++ kv.1 ++ " (" ++ kv.2.category ++ "): " ++ role

/-- Embeds `Conductor._build_agent_catalog` (`conductor.py` lines 64–71). -/
def agent_catalog (c : Conductor) : String :=
  String.intercalate "\n" (c.agents.map catalogLine)

/-- A recorded backend call: one `OllamaClient.generate` or
`OllamaClient.chat` invocation, with the arguments the conductor passes. -/
inductive OllamaCall where
  | generate (model : String) (prompt : String) (temperature : ℚ)
  | chat (model : String) (messages : List ChatMessage) (temperature : ℚ)
deriving DecidableEq

/-- The backend as an oracle: the `response.response` text of a
successful `generate` or `chat` call as a function of its arguments.
(Transport failures - the spec taxonomy item BackendUnavailable - are
outside the claims checked here, which all assume calls that return.) -/
structure Oracle where
  genFn : String → String → ℚ → String
  chatFn : String → List ChatMessage → ℚ → String

/-- The exact fallback reasoning produced at `conductor.py` line 144.
The f-string interpolates the `agent` variable after it was already
reset to `"conductor"` on line 143, so the message always names
`conductor`, not the handler that was missing. -/
def notFoundMsg : String :=
  "Agent " ++ apos ++ "conductor" ++ apos ++ " not found, handling directly"

/-- The fuzzy-match predicate of `conductor.py` line 139:
`agent in name or name in agent`. -/
def fuzzyPred (agent : String) (kv : String × AgentProfile) : Bool :=
  isSubstr agent.data kv.1.data || isSubstr kv.1.data agent.data

/-- The `for name in self.agents: ... break / else:` scan of
`conductor.py` lines 138–141: the first catalog entry, in insertion
order, whose identifier contains or is contained in the extracted one. -/
def fuzzyMatch (agents : List (String × AgentProfile)) (agent : String) :
    Option (String × AgentProfile) :=
  agents.find? (fuzzyPred agent)

/-- The validation step of `_parse_routing_response` (`conductor.py`
lines 135–144), acting on the extracted agent and current reasoning. -/
def validateAgent (agents : List (String × AgentProfile)) (agent reasoning : String) :
    String × String :=
  if agent != "conductor" && (agents.lookup agent).isNone then
    match fuzzyMatch agents agent with
    | some kv => (kv.1, reasoning)
    | none => ("conductor", notFoundMsg)
  else
    (agent, reasoning)

/-- The `AGENT` block of `_parse_routing_response` (`conductor.py` lines
112, 117–119): the default, or the captured token stripped and
lowercased. -/
def extractAgent (response : String) : String :=
  match searchAgentTag response.data with
  | some g => ((pyStrip g).map Char.toLower).asString
  | none => "conductor"

/-- The `CONFIDENCE` block (`conductor.py` lines 113, 122–128): the
default, or the parsed float clamped to `[0, 1]`, falling back to the
default when `float()` rejects the capture. -/
def extractConfidence (response : String) : ℚ :=
  match searchConfTag response.data with
  | some g =>
      match pyFloat g with
      | some v => max 0 (min 1 v)
      | none => (1 : ℚ) / 2
  | none => (1 : ℚ) / 2

/-- The `REASON` block (`conductor.py` lines 114, 131–133): the default,
or the captured text stripped. -/
def extractReasoning (response : String) : String :=
  match searchReasonTag response.data with
  | some g => (pyStrip g).asString
  | none => "Default routing"

/-- Embeds `Conductor._parse_routing_response` (`conductor.py` lines
110–150): the three extraction blocks, then the validation step. -/
def parse_routing_response (agents : List (String × AgentProfile)) (response : String) :
    RoutingDecision :=
  let av := validateAgent agents (extractAgent response) (extractReasoning response)
  ⟨av.1, extractConfidence response, av.2⟩

/-- The routing prompt of `Conductor.route` (`conductor.py` lines
81–98), byte for byte. -/
def routingPrompt (c : Conductor) (query : String) (s : Session) : String :=
  "You are the routing component of Yollayah.\n\nAnalyze this query and decide which specialist agent should handle it.\nIf no specialist is needed (general conversation, simple questions), respond with \"conductor\".\n\nAvailable specialists:\n"
    ++ (agent_catalog c
    ++ ("\n\nQuery: " ++ (query
    ++ ("\n\nContext from conversation:\n"
    ++ ((if !(s.turns.isEmpty) then get_context_summary s else "No prior context.")
    ++ "\n\nRespond in this exact format:\nAGENT: <agent-name>\nCONFIDENCE: <0.0-1.0>\nREASON: <brief explanation>\n")))))

/-- The backend call `route` makes (`conductor.py` lines 100–105). -/
def routeCall (c : Conductor) (query : String) (s : Session) : OllamaCall :=
  .generate c.config.conductor_model (routingPrompt c query s) c.config.routing_temperature

/-- Embeds `Conductor.route` (`conductor.py` lines 73–108): build the prompt,
make one `generate` call, parse the reply.  Returns the decision, the
calls made, and the session as the method leaves it. -/
def route (c : Conductor) (o : Oracle) (query : String) (s : Session) :
    RoutingDecision × List OllamaCall × Session :=
  let reply := o.genFn c.config.conductor_model (routingPrompt c query s)
    c.config.routing_temperature
  (parse_routing_response c.agents reply, [routeCall c query s], s)

/-- The handoff prompt (`conductor.py` lines 177–184), byte for byte. -/
def handoffPrompt (query agent_name context : String) : String :=
  "Context from conversation:\n" ++ (context
    ++ ("\n\nUser query: " ++ (query
    ++ ("\n\nPlease respond as the " ++ ((String.replace agent_name ("-") (" "))
    ++ " specialist.\nFocus on your area of expertise. Be helpful and specific.\n")))))

/-- Embeds `Conductor.handoff` (`conductor.py` lines 152–196): an unknown agent
short-circuits with an error string and no backend call; otherwise one
`generate` call against the specialist model. -/
def handoff (c : Conductor) (o : Oracle) (query agent_name : String) (s : Session) :
    String × List OllamaCall × Session :=
  match c.agents.lookup agent_name with
  | none => ("Agent " ++ agent_name ++ " not found.", [], s)
  | some _ =>
      let context := get_context_summary s
      let prompt := handoffPrompt query agent_name context
      let model := c.config.agent_model_stem ++ agent_name
      (o.genFn model prompt c.config.response_temperature,
       [.generate model prompt c.config.response_temperature], s)

/-- The presentation prompt (`conductor.py` lines 280–299), byte for
byte (apostrophes written as `\x27`). -/
def presentationPrompt (query agent_name specialist_response : String) : String :=
  "You are Yollayah presenting information from a specialist.\n\nThe "
    ++ ((String.replace agent_name ("-") (" "))
    ++ (" just provided this response to the user\x27s question:\n\nSPECIALIST RESPONSE:\n"
    ++ (specialist_response
    ++ ("\n\nUSER\x27S ORIGINAL QUESTION:\n" ++ (query
    ++ "\n\nPresent this information in your own voice (warm, real, playfully opinionated).\nYou can:\n- Summarize if the response is very technical\n- Add encouraging comments\n- Ask if they need clarification\n- Celebrate if they\x27re making progress\n\nKeep your personality but make sure the specialist\x27s key information comes through.\nDon\x27t say \"the specialist said\" - just present it naturally as if you\x27re explaining it.\n")))))

/-- Embeds `Conductor._present_specialist_response` (`conductor.py` lines
267–307): one `generate` call against the conductor model. -/
def present_specialist_response (c : Conductor) (o : Oracle)
    (query agent_name specialist_response : String) (s : Session) :
    String × List OllamaCall × Session :=
  let prompt := presentationPrompt query agent_name specialist_response
  (o.genFn c.config.conductor_model prompt c.config.response_temperature,
   [.generate c.config.conductor_model prompt c.config.response_temperature], s)

/-- Embeds `Conductor._respond_directly` (`conductor.py` lines 253–265): one
`chat` call with the windowed history plus the new user message. -/
def respond_directly (c : Conductor) (o : Oracle) (query : String) (s : Session) :
    String × List OllamaCall × Session :=
  let messages := get_chat_history s c.config.max_context_turns ++ [⟨"user", query⟩]
  (o.chatFn c.config.conductor_model messages c.config.response_temperature,
   [.chat c.config.conductor_model messages c.config.response_temperature], s)

/-- Embeds `ConductorResponse` (`conductor.py` lines 29–36); wall-clock
`latency_ms` is not modelled and reads 0; `tokens_used` keeps its
dataclass default, which `respond` never overrides. -/
structure ConductorResponse where
  message : String
  routing : Option RoutingDecision
  tokens_used : Int := 0
  latency_ms : ℚ := 0
  specialist_response : Option String := none

/-- Everything observable about one `respond` call: the returned
response, the backend calls made in order, whether the `route`
sub-operation ran at all, and the session state it leaves behind. -/
structure RespondOut where
  resp : ConductorResponse
  calls : List OllamaCall
  routeInvoked : Bool
  finalSession : Session

/-- Step 1 of `respond` (`conductor.py` lines 220–228): the forced
synthetic decision, or the routed one. -/
def resolvedRouting (c : Conductor) (o : Oracle) (query : String) (s : Session)
    (force_agent : Option String) : RoutingDecision :=
  match force_agent with
  | some a => ⟨a, 1, "Agent forced by request"⟩
  | none => (route c o query s).1

/-- Embeds step 2 of `Conductor.respond` (`conductor.py` lines 230–251):
direct answer, or handoff followed by presentation. -/
def respondHandle (c : Conductor) (o : Oracle) (query : String) (s : Session)
    (routing : RoutingDecision) (callsSoFar : List OllamaCall) (invoked : Bool) :
    RespondOut :=
  if routing.agent == "conductor" then
    let d := respond_directly c o query s
    ⟨{ message := d.1, routing := some routing }, callsSoFar ++ d.2.1, invoked, d.2.2⟩
  else
    let h := handoff c o query routing.agent s
    let p := present_specialist_response c o query routing.agent h.1 h.2.2
    ⟨{ message := p.1, routing := some routing, specialist_response := some h.1 },
     callsSoFar ++ h.2.1 ++ p.2.1, invoked, p.2.2⟩

/-- Embeds `Conductor.respond` (`conductor.py` lines 198–251): step 1
resolves the routing decision (forced, or via `route`), step 2 is
`respondHandle`. -/
def respond (c : Conductor) (o : Oracle) (query : String) (s : Session)
    (force_agent : Option String) : RespondOut :=
  match force_agent with
  | some a => respondHandle c o query s ⟨a, 1, "Agent forced by request"⟩ [] false
  | none =>
      let r := route c o query s
      respondHandle c o query r.2.2 r.1 r.2.1 true

/-! ## Shared helper lemmas -/

/-- Folding append over a list, as the message-building loops do, is a
`flatMap` onto the accumulator. -/
theorem foldl_append_flatMap (f : Turn → List ChatMessage) :
    ∀ (l : List Turn) (init : List ChatMessage),
      l.foldl (fun ms t => ms ++ f t) init = init ++ l.flatMap f
  | [], init => by simp
  | t :: ts, init => by
      simp [List.flatMap_cons, foldl_append_flatMap f ts]

/-- Decoding inverts encoding on a single serialized turn. -/
theorem decodeTurn_encodeTurn (t : Turn) : decodeTurn (encodeTurn t) = .ok t := by
  obtain ⟨um, ar, rt, tk, lm, ts⟩ := t
  cases rt <;> rfl

/-- Decoding inverts encoding across a serialized turn list (stated over
the accumulator-passing loop `List.mapM` compiles to). -/
theorem mapM_loop_decode :
    ∀ (ts : List Turn) (acc : List Turn),
      List.mapM.loop decodeTurn (ts.map encodeTurn) acc = .ok (acc.reverse ++ ts)
  | [], acc => by rw [List.append_nil]; rfl
  | t :: ts, acc => by
      calc List.mapM.loop decodeTurn ((t :: ts).map encodeTurn) acc
          = decodeTurn (encodeTurn t) >>=
              (fun b => List.mapM.loop decodeTurn (ts.map encodeTurn) (b :: acc)) := rfl
        _ = List.mapM.loop decodeTurn (ts.map encodeTurn) (t :: acc) := by
              rw [decodeTurn_encodeTurn]; rfl
        _ = .ok ((t :: acc).reverse ++ ts) := mapM_loop_decode ts (t :: acc)
        _ = .ok (acc.reverse ++ t :: ts) := by simp

/-- Decoding inverts encoding across a serialized turn list. -/
theorem mapM_decodeTurn_encodeTurn (ts : List Turn) :
    (ts.map encodeTurn).mapM decodeTurn = Except.ok ts := by
  simpa using mapM_loop_decode ts []

/-- Deserialization inverts serialization on any session. -/
theorem from_dict_to_dict (s : Session) : from_dict (to_dict s) = .ok s := by
  obtain ⟨id, ca, turns, ctx, surf, prefs, mood⟩ := s
  cases surf with
  | none =>
      have h : from_dict (to_dict ⟨id, ca, turns, ctx, none, prefs, mood⟩)
          = (turns.map encodeTurn).mapM decodeTurn >>=
              (fun t => Except.ok ⟨id, ca, t, ctx, none, prefs, mood⟩) := rfl
      rw [h, mapM_decodeTurn_encodeTurn]; rfl
  | some v =>
      have h : from_dict (to_dict ⟨id, ca, turns, ctx, some v, prefs, mood⟩)
          = (turns.map encodeTurn).mapM decodeTurn >>=
              (fun t => Except.ok ⟨id, ca, t, ctx, some v, prefs, mood⟩) := rfl
      rw [h, mapM_decodeTurn_encodeTurn]; rfl

/-- Loading the snapshot written by `save_sessions` restores the store
behind whatever was already accumulated. -/
theorem loadLoop_save (st : List (String × Session)) :
    ∀ acc, loadLoop (st.map (fun kv => (kv.1, to_dict kv.2))) acc = .ok (acc ++ st) := by
  induction st with
  | nil => intro acc; simp [loadLoop]
  | cons kv rest ih =>
      intro acc
      simp [loadLoop, from_dict_to_dict, ih]

/-- Filtering out a key makes its lookup miss. -/
theorem lookup_filter_self (store : List (String × Session)) (sid : String) :
    (store.filter (fun kv => kv.1 != sid)).lookup sid = none := by
  induction store with
  | nil => rfl
  | cons kv rest ih =>
      rw [List.filter_cons]
      by_cases h : kv.1 = sid
      · simp only [h, bne_self_eq_false]
        simpa using ih
      · have hb : (kv.1 != sid) = true := by simp [bne, h]
        have hs : (sid == kv.1) = false := by
          rw [beq_eq_false_iff_ne]; exact Ne.symm h
        simp only [hb, if_true]
        rw [List.lookup_cons, hs]
        exact ih

/-- Filtering out one key leaves every other lookup unchanged. -/
theorem lookup_filter_ne (store : List (String × Session)) (sid k : String)
    (hk : k ≠ sid) :
    (store.filter (fun kv => kv.1 != sid)).lookup k = store.lookup k := by
  induction store with
  | nil => rfl
  | cons kv rest ih =>
      rw [List.filter_cons]
      by_cases h : kv.1 = sid
      · have hkkv : (k == kv.1) = false := by
          rw [beq_eq_false_iff_ne, h]; exact hk
        simp only [h, bne_self_eq_false, if_false, Bool.false_eq_true]
        rw [List.lookup_cons, hkkv, ih]
      · have hb : (kv.1 != sid) = true := by simp [bne, h]
        simp only [hb, if_true]
        rw [List.lookup_cons, List.lookup_cons]
        cases hkk : (k == kv.1) with
        | true => rfl
        | false => exact ih

/-- A `KeyError` entry ends the load loop with what was loaded so far,
regardless of what would have followed it. -/
theorem loadLoop_stop (sid : String) (bad : Json) (rest : List (String × Json))
    (hbad : from_dict bad = .error .keyError) :
    ∀ (pre : List (String × Json)) (acc loaded : List (String × Session)),
      loadLoop pre acc = .ok loaded →
      loadLoop (pre ++ (sid, bad) :: rest) acc = .ok loaded
  | [], acc, loaded, h => by
      simp [loadLoop] at h
      simp [loadLoop, hbad, h]
  | (s0, j0) :: pre, acc, loaded, h => by
      rw [List.cons_append]
      rw [loadLoop] at h ⊢
      cases hj : from_dict j0 with
      | ok s => 
          rw [hj] at h
          exact loadLoop_stop sid bad rest hbad pre _ loaded h
      | error e =>
          rw [hj] at h
          cases e <;> simp_all

/-! ## Concrete fixtures used by witness and counterexample theorems -/

def wRouting : RoutingDecision := ⟨"ethical-hacker", 9 / 10, "security topic"⟩

def wTurn1 : Turn := ⟨"first question", "first answer", some wRouting, 5, 2, "t1"⟩

def wTurn2 : Turn := ⟨"second question", "second answer", none, 7, 3, "t2"⟩

def wTurn3 : Turn := ⟨"third question", "third answer", none, 0, 0, "t3"⟩

def wSession : Session := ⟨"sid0", "2025-01-01T00:00:00", [], [], none, [], "neutral"⟩

def wSession3 : Session :=
  ⟨"sid3", "2025-01-02T00:00:00", [wTurn1, wTurn2, wTurn3],
   [("lang", .str "python")], some ("tui"), [("tone", .str "casual")], "curious"⟩

def wStore : List (String × Session) := [("a", wSession), ("b", wSession3)]

/-! ## Claim theorems: session entity -/

/-- C6: the context summary emits its sections in the fixed order
(last three turns truncated to 100 characters with an ellipsis marker,
then context pairs in insertion order, then preference pairs in
insertion order, then the mood only when not `"neutral"`), each section
omitted exactly when its backing data is empty; a fresh session
summarizes to the empty string. -/
theorem c6_context_summary (s : Session) :
    get_context_summary s =
      String.intercalate "\n"
        (turnsSection s ++ contextSection s ++ prefsSection s ++ moodSection s)
    ∧ (turnsSection s = [] ↔ s.turns = [])
    ∧ (contextSection s = [] ↔ s.context = [])
    ∧ (prefsSection s = [] ↔ s.preferences = [])
    ∧ (moodSection s = [] ↔ s.detected_mood = "neutral")
    ∧ (s.turns = [] → s.context = [] → s.preferences = [] →
        s.detected_mood = "neutral" → get_context_summary s = "") := by
  refine ⟨?_, ?_, ?_, ?_, ?_, ?_⟩
  · simp [get_context_summary]
  · rcases hT : s.turns with _ | ⟨t, ts⟩ <;> simp [turnsSection, hT]
  · rcases hC : s.context with _ | ⟨kv, rest⟩ <;> simp [contextSection, hC]
  · rcases hP : s.preferences with _ | ⟨kv, rest⟩ <;> simp [prefsSection, hP]
  · by_cases h : s.detected_mood = "neutral" <;> simp [moodSection, h]
  · intro h1 h2 h3 h4
    simp [get_context_summary, turnsSection, contextSection, prefsSection,
      moodSection, h1, h2, h3, h4, String.intercalate]

/-- C6 witness: a fresh session with no turns, no context, no preferences
and the default mood summarizes to the empty string. -/
theorem c6_context_summary_witness : get_context_summary wSession = "" :=
  (c6_context_summary wSession).2.2.2.2.2 rfl rfl rfl rfl

/-- C7: deserializing a serialized session succeeds and reproduces the
turn count, the total token count, and the context and preference maps. -/
theorem c7_roundtrip (s : Session) :
    ∃ s2 : Session, from_dict (to_dict s) = .ok s2
      ∧ total_turns s2 = total_turns s
      ∧ total_tokens s2 = total_tokens s
      ∧ s2.context = s.context
      ∧ s2.preferences = s.preferences :=
  ⟨s, from_dict_to_dict s, rfl, rfl, rfl, rfl⟩

/-- C10: with a positive window, `get_chat_history` returns exactly the
last `min max_turns (turn count)` turns, oldest first, each contributing
a user message then an assistant message; with a zero window it returns
all turns (zero disables the window). -/
theorem c10_chat_history (s : Session) (m : Nat) :
    (m ≠ 0 →
      get_chat_history s m = ((s.turns.reverse.take m).reverse).flatMap turnMessages
        ∧ ((s.turns.reverse.take m).reverse).length = min m s.turns.length)
    ∧ get_chat_history s 0 = s.turns.flatMap turnMessages := by
  constructor
  · intro hm
    constructor
    · have h1 : s.turns.drop (s.turns.length - m) = (s.turns.reverse.take m).reverse := by
        rw [← List.rtake_eq_reverse_take_reverse]
        simp [List.rtake]
      cases m with
      | zero => exact absurd rfl hm
      | succ k =>
          show (s.turns.drop (s.turns.length - (k + 1))).foldl
              (fun messages turn => messages ++ turnMessages turn) [] = _
          rw [foldl_append_flatMap turnMessages, h1]
          simp
    · simp [List.length_take]
  · simp [get_chat_history, foldl_append_flatMap]

/-- C10 witness: a three-turn session with a window of two yields the
messages of the last two turns. -/
theorem c10_chat_history_witness :
    (2 : Nat) ≠ 0
    ∧ get_chat_history wSession3 2
        = ((wSession3.turns.reverse.take 2).reverse).flatMap turnMessages :=
  ⟨by decide, ((c10_chat_history wSession3 2).1 (by decide)).1⟩

/-! ## Claim theorems: session store -/

/-- C8 counterexample: a parsed snapshot in which a session entry is not
a dict (here the integer 42) raises `TypeError` out of
`_load_sessions` - only `json.JSONDecodeError` and `KeyError` are
caught - so loading a malformed snapshot is not always a non-fatal
warning. -/
theorem c8_counterexample :
    load_sessions (.content (.obj [("s1", .int 42)])) = .error .typeError := rfl

/-- C8 (amended): a missing snapshot and an undecodable snapshot text
each yield an empty store without raising; a `KeyError` while decoding a
session entry is caught and the store keeps exactly the sessions loaded
before the failing entry (rather than being empty); other malformed
entries (for example, a session record that is not a dict) raise out of
the load. -/
theorem c8_load_tolerance :
    load_sessions .missing = .ok []
    ∧ load_sessions .malformedText = .ok []
    ∧ ∀ (pre : List (String × Json)) (loaded : List (String × Session)) (sid : String)
        (bad : Json) (rest : List (String × Json)),
        loadLoop pre [] = .ok loaded →
        from_dict bad = .error .keyError →
        load_sessions (.content (.obj (pre ++ (sid, bad) :: rest))) = .ok loaded := by
  refine ⟨rfl, rfl, ?_⟩
  intro pre loaded sid bad rest hpre hbad
  show loadLoop (pre ++ (sid, bad) :: rest) [] = .ok loaded
  exact loadLoop_stop sid bad rest hbad pre [] loaded hpre

/-- C8 witness: one good session followed by a dict missing every key
(`KeyError` on `data["id"]`) loads the good session only, and the entry
after the bad one is never reached. -/
theorem c8_load_tolerance_witness :
    load_sessions (.content (.obj [("a", to_dict wSession), ("b", .obj []), ("c", .null)]))
      = .ok [("a", wSession)] := by
  have h := c8_load_tolerance.2.2 [("a", to_dict wSession)] [("a", wSession)]
    ("b") (.obj []) [("c", .null)] (by rfl) (by rfl)
  simpa using h

/-- C9: deleting a present session id returns `True`, removes exactly
that id from the store (every other id still resolves), and the snapshot
written afterwards reloads to the deleted store, so the id is absent
after a persist/reload cycle; deleting an unknown id returns `False` as
a plain result (no exception) and leaves the store unchanged. -/
theorem c9_delete_session (store : List (String × Session)) (sid : String)
    (_hnd : (store.map Prod.fst).Nodup) :
    ((store.lookup sid).isSome = true →
        (delete_session store sid).1 = true
        ∧ ((delete_session store sid).2.lookup sid) = none
        ∧ (∀ k, k ≠ sid → (delete_session store sid).2.lookup k = store.lookup k)
        ∧ load_sessions (.content (save_sessions (delete_session store sid).2))
            = .ok (delete_session store sid).2)
    ∧ ((store.lookup sid) = none → delete_session store sid = (false, store)) := by
  constructor
  · intro hs
    have hD : delete_session store sid = (true, store.filter (fun kv => kv.1 != sid)) := by
      unfold delete_session
      rw [hs]
      rfl
    rw [hD]
    refine ⟨rfl, lookup_filter_self store sid,
      fun k hk => lookup_filter_ne store sid k hk, ?_⟩
    show load_sessions (.content (save_sessions _)) = _
    unfold load_sessions save_sessions
    simpa using loadLoop_save (store.filter (fun kv => kv.1 != sid)) []
  · intro hn
    unfold delete_session
    rw [hn]
    rfl

/-- C9 witness: deleting the first of two stored sessions returns `True`
and its id no longer resolves. -/
theorem c9_delete_session_witness :
    (delete_session wStore ("a")).1 = true
    ∧ ((delete_session wStore ("a")).2.lookup ("a")) = none := by
  have h := (c9_delete_session wStore ("a") (by decide)).1 (by rfl)
  exact ⟨h.1, h.2.1⟩

/-! ## Conductor fixtures and call-shape abbreviations -/

def wOracle : Oracle := ⟨fun _ _ _ => "gen-reply", fun _ _ _ => "chat-reply"⟩

def wProfileHelper : AgentProfile := { name := "helper", category := "x", filepath := "" }

def wConductor : Conductor := { agents := [("helper", wProfileHelper)], config := {} }

def wProfileAbc : AgentProfile := { name := "abc", category := "x", filepath := "" }

def wCatalogAbc : List (String × AgentProfile) := [("abc", wProfileAbc)]

def wProfileEth : AgentProfile := { name := "ethical-hacker", category := "security", filepath := "" }

def wProfileBack : AgentProfile := { name := "backend-engineer", category := "developers", filepath := "" }

def wCatalogHack : List (String × AgentProfile) :=
  [("ethical-hacker", wProfileEth), ("backend-engineer", wProfileBack)]

def wProfileA : AgentProfile := { name := "a-hacker", category := "security", filepath := "" }

def wProfileB : AgentProfile := { name := "b-hacker", category := "security", filepath := "" }

def wCatalogAB : List (String × AgentProfile) :=
  [("a-hacker", wProfileA), ("b-hacker", wProfileB)]

/-- The model name `handoff` builds for a specialist. -/
def specialistModel (c : Conductor) (agent_name : String) : String :=
  c.config.agent_model_stem ++ agent_name

/-- The reply text of the handoff call, as a function of its inputs. -/
def handoffReply (c : Conductor) (o : Oracle) (q : String) (s : Session)
    (agent_name : String) : String :=
  o.genFn (specialistModel c agent_name)
    (handoffPrompt q agent_name (get_context_summary s)) c.config.response_temperature

/-- The backend call the handoff step makes for a known specialist. -/
def handoffCallOf (c : Conductor) (q : String) (s : Session) (agent_name : String) :
    OllamaCall :=
  .generate (specialistModel c agent_name)
    (handoffPrompt q agent_name (get_context_summary s)) c.config.response_temperature

/-- The reply text of the presentation call that follows the handoff. -/
def presentReply (c : Conductor) (o : Oracle) (q : String) (s : Session)
    (agent_name : String) : String :=
  o.genFn c.config.conductor_model
    (presentationPrompt q agent_name (handoffReply c o q s agent_name))
    c.config.response_temperature

/-- The backend call the presentation step makes. -/
def presentCallOf (c : Conductor) (o : Oracle) (q : String) (s : Session)
    (agent_name : String) : OllamaCall :=
  .generate c.config.conductor_model
    (presentationPrompt q agent_name (handoffReply c o q s agent_name))
    c.config.response_temperature

/-- The calls made by step 1 of `respond`: none when forced, exactly the
routing call otherwise. -/
def routePhase (c : Conductor) (q : String) (s : Session) : Option String → List OllamaCall
  | some _ => []
  | none => [routeCall c q s]

/-! ## The three prompt families are pairwise distinct

Each prompt is a fixed literal head followed by interpolated text, and
the three heads already differ at character index 8 (`t` / `f` / `Y`),
so no specialist-phase call can ever coincide with the routing call. -/

/-- Indexing below the length of the left part of an append stays in the
left part. -/
theorem data_getElem?_append {a : String} (x : String) {i : Nat}
    (h : i < a.data.length) : (a ++ x).data[i]? = a.data[i]? := by
  rw [String.data_append, List.getElem?_append, if_pos h]

set_option maxRecDepth 4000 in
/-- Character 8 of every routing prompt is `t` (from `You are the`). -/
theorem routingPrompt_at8 (c : Conductor) (q : String) (s : Session) :
    (routingPrompt c q s).data[8]? = some ('t') := by
  unfold routingPrompt
  rw [data_getElem?_append _ (by decide)]
  rfl

set_option maxRecDepth 4000 in
/-- Character 8 of every handoff prompt is `f` (from `Context from`). -/
theorem handoffPrompt_at8 (q a ctx : String) :
    (handoffPrompt q a ctx).data[8]? = some ('f') := by
  unfold handoffPrompt
  rw [data_getElem?_append _ (by decide)]
  rfl

set_option maxRecDepth 4000 in
/-- Character 8 of every presentation prompt is `Y` (from
`You are Yollayah`). -/
theorem presentationPrompt_at8 (q a sr : String) :
    (presentationPrompt q a sr).data[8]? = some ('Y') := by
  unfold presentationPrompt
  rw [data_getElem?_append _ (by decide)]
  rfl

/-- A routing prompt never equals a handoff prompt. -/
theorem routingPrompt_ne_handoffPrompt (c : Conductor) (q : String) (s : Session)
    (q2 a2 ctx : String) : routingPrompt c q s ≠ handoffPrompt q2 a2 ctx := by
  intro h
  have h8 : (routingPrompt c q s).data[8]? = (handoffPrompt q2 a2 ctx).data[8]? := by
    rw [h]
  rw [routingPrompt_at8, handoffPrompt_at8] at h8
  exact absurd h8 (by decide)

/-- A routing prompt never equals a presentation prompt. -/
theorem routingPrompt_ne_presentationPrompt (c : Conductor) (q : String) (s : Session)
    (q2 a2 sr : String) : routingPrompt c q s ≠ presentationPrompt q2 a2 sr := by
  intro h
  have h8 : (routingPrompt c q s).data[8]? = (presentationPrompt q2 a2 sr).data[8]? := by
    rw [h]
  rw [routingPrompt_at8, presentationPrompt_at8] at h8
  exact absurd h8 (by decide)

/-! ## Structure of `respondHandle` -/

/-- The route-invocation flag passes through the handling step untouched. -/
theorem respondHandle_routeInvoked (c : Conductor) (o : Oracle) (q : String) (s : Session)
    (r : RoutingDecision) (cs : List OllamaCall) (b : Bool) :
    (respondHandle c o q s r cs b).routeInvoked = b := by
  unfold respondHandle
  split <;> rfl

/-- The handling step returns exactly the decision it was given. -/
theorem respondHandle_routing (c : Conductor) (o : Oracle) (q : String) (s : Session)
    (r : RoutingDecision) (cs : List OllamaCall) (b : Bool) :
    (respondHandle c o q s r cs b).resp.routing = some r := by
  unfold respondHandle
  split <;> rfl

/-- The handling step leaves the session untouched. -/
theorem respondHandle_finalSession (c : Conductor) (o : Oracle) (q : String) (s : Session)
    (r : RoutingDecision) (cs : List OllamaCall) (b : Bool) :
    (respondHandle c o q s r cs b).finalSession = s := by
  unfold respondHandle
  split
  · rfl
  · show (handoff c o q r.agent s).2.2 = s
    unfold handoff
    cases c.agents.lookup r.agent <;> rfl

/-- On the specialist path with a known handler, the handling step makes
exactly the handoff call then the presentation call, presents the
presentation reply, and retains the raw handoff reply. -/
theorem respondHandle_spec (c : Conductor) (o : Oracle) (q : String) (s : Session)
    (r : RoutingDecision) (cs : List OllamaCall) (b : Bool)
    (h1 : (r.agent == "conductor") = false)
    (h2 : (c.agents.lookup r.agent).isSome = true) :
    respondHandle c o q s r cs b =
      ⟨{ message := presentReply c o q s r.agent,
         routing := some r,
         specialist_response := some (handoffReply c o q s r.agent) },
       cs ++ [handoffCallOf c q s r.agent, presentCallOf c o q s r.agent],
       b, s⟩ := by
  rcases Option.isSome_iff_exists.mp h2 with ⟨p, hp⟩
  unfold respondHandle
  rw [h1, if_neg Bool.false_ne_true]
  unfold handoff
  rw [hp]
  simp [present_specialist_response, handoffCallOf, presentCallOf, handoffReply,
    presentReply, specialistModel, List.append_assoc]

/-- The routing call never equals a handoff-phase `generate` call on a
handoff prompt. -/
theorem routeCall_ne_handoff_generate (c : Conductor) (q : String) (s : Session)
    (m q2 a2 ctx : String) (t : ℚ) :
    routeCall c q s ≠ OllamaCall.generate m (handoffPrompt q2 a2 ctx) t := by
  intro h
  injection h with h1 h2 h3
  exact routingPrompt_ne_handoffPrompt c q s q2 a2 ctx h2

/-- The routing call never equals a presentation-phase `generate` call. -/
theorem routeCall_ne_presentation_generate (c : Conductor) (q : String) (s : Session)
    (m q2 a2 sr : String) (t : ℚ) :
    routeCall c q s ≠ OllamaCall.generate m (presentationPrompt q2 a2 sr) t := by
  intro h
  injection h with h1 h2 h3
  exact routingPrompt_ne_presentationPrompt c q s q2 a2 sr h2

/-! ## Claim theorems: the Conductor -/

/-- C3 (amended): a forced handler bypasses the Routing Engine entirely -
the `route` sub-operation never runs and the routing call appears
nowhere in the backend trace - and the synthetic decision carries
confidence 1.0 and reasoning `"Agent forced by request"`. -/
theorem c3_forced_bypasses_routing (c : Conductor) (o : Oracle) (q : String)
    (s : Session) (a : String) :
    (respond c o q s (some a)).routeInvoked = false
    ∧ (respond c o q s (some a)).resp.routing = some ⟨a, 1, "Agent forced by request"⟩
    ∧ routeCall c q s ∉ (respond c o q s (some a)).calls := by
  refine ⟨respondHandle_routeInvoked c o q s ⟨a, 1, "Agent forced by request"⟩ [] false,
    respondHandle_routing c o q s ⟨a, 1, "Agent forced by request"⟩ [] false, ?_⟩
  show routeCall c q s ∉ (respondHandle c o q s ⟨a, 1, "Agent forced by request"⟩ [] false).calls
  unfold respondHandle
  split
  · intro hmem
    simp only [respond_directly, List.nil_append, List.mem_singleton] at hmem
    exact absurd hmem (by intro h; injection h)
  · show routeCall c q s ∉
      [] ++ (handoff c o q (⟨a, 1, "Agent forced by request"⟩ : RoutingDecision).agent s).2.1
        ++ (present_specialist_response c o q
              (⟨a, 1, "Agent forced by request"⟩ : RoutingDecision).agent
              (handoff c o q (⟨a, 1, "Agent forced by request"⟩ : RoutingDecision).agent s).1
              (handoff c o q (⟨a, 1, "Agent forced by request"⟩ : RoutingDecision).agent s).2.2).2.1
    unfold handoff present_specialist_response
    cases c.agents.lookup (⟨a, 1, "Agent forced by request"⟩ : RoutingDecision).agent with
    | none =>
        intro hmem
        simp only [List.nil_append, List.mem_append, List.mem_singleton,
          List.not_mem_nil, false_or] at hmem
        exact routeCall_ne_presentation_generate c q s _ _ _ _ _ hmem
    | some p =>
        intro hmem
        simp only [List.nil_append, List.mem_append, List.mem_singleton,
          List.not_mem_nil, false_or] at hmem
        rcases hmem with h | h
        · exact routeCall_ne_handoff_generate c q s _ _ _ _ _ h
        · exact routeCall_ne_presentation_generate c q s _ _ _ _ _ h

/-- C3 counterexample: the synthetic forced decision carries the
reasoning string `"Agent forced by request"`, not `"forced"`. -/
theorem c3_counterexample :
    (respond wConductor wOracle ("hi") wSession (some ("helper"))).resp.routing
      = some ⟨"helper", 1, "Agent forced by request"⟩
    ∧ "Agent forced by request" ≠ "forced" :=
  ⟨rfl, by decide⟩

/-- C4 (amended): whenever the resolved handler is not the sentinel and
is present in the catalog, the handling phase makes exactly two backend
calls after routing resolution - the specialist handoff `generate`, then
the persona presentation `generate`, in that order - the final message
is the presentation reply (not the raw handoff text), and the raw
handoff text is retained in the response record. -/
theorem c4_specialist_two_calls (c : Conductor) (o : Oracle) (q : String) (s : Session)
    (fa : Option String)
    (h1 : ((resolvedRouting c o q s fa).agent == "conductor") = false)
    (h2 : (c.agents.lookup (resolvedRouting c o q s fa).agent).isSome = true) :
    (respond c o q s fa).calls
        = routePhase c q s fa
          ++ [handoffCallOf c q s (resolvedRouting c o q s fa).agent,
              presentCallOf c o q s (resolvedRouting c o q s fa).agent]
    ∧ (respond c o q s fa).resp.message
        = presentReply c o q s (resolvedRouting c o q s fa).agent
    ∧ (respond c o q s fa).resp.specialist_response
        = some (handoffReply c o q s (resolvedRouting c o q s fa).agent) := by
  cases fa with
  | some a =>
      have h := respondHandle_spec c o q s ⟨a, 1, "Agent forced by request"⟩ [] false h1 h2
      rw [show respond c o q s (some a)
            = respondHandle c o q s ⟨a, 1, "Agent forced by request"⟩ [] false from rfl, h]
      exact ⟨rfl, rfl, rfl⟩
  | none =>
      have h := respondHandle_spec c o q s (route c o q s).1 [routeCall c q s] true h1 h2
      rw [show respond c o q s none
            = respondHandle c o q s (route c o q s).1 [routeCall c q s] true from rfl, h]
      exact ⟨rfl, rfl, rfl⟩

/-- C4 witness: a forced known specialist produces exactly two backend
calls. -/
theorem c4_specialist_two_calls_witness :
    ((respond wConductor wOracle ("q") wSession (some ("helper"))).calls).length = 2 := by
  have h := c4_specialist_two_calls wConductor wOracle ("q") wSession (some ("helper"))
    (by decide) (by rfl)
  rw [h.1]
  rfl

/-- C4 counterexample: forcing a handler that is absent from the catalog
bypasses direct response but makes only one backend call (the handoff
short-circuits to an error string without calling the backend), and the
retained specialist text is that error string, not backend output. -/
theorem c4_counterexample :
    (resolvedRouting wConductor wOracle ("q") wSession (some ("ghost"))).agent = "ghost"
    ∧ "ghost" ≠ "conductor"
    ∧ ((respond wConductor wOracle ("q") wSession (some ("ghost"))).calls).length = 1
    ∧ (respond wConductor wOracle ("q") wSession (some ("ghost"))).resp.specialist_response
        = some ("Agent ghost not found.") :=
  ⟨rfl, by decide, rfl, rfl⟩

/-- C5: neither `respond` nor any of its sub-steps (`route`, `handoff`,
direct response, presentation) changes the session: each hands back the
session state exactly as it received it, so turn recording is solely the
caller's doing. -/
theorem c5_session_frame (c : Conductor) (o : Oracle) (q a t : String) (s : Session)
    (fa : Option String) :
    (route c o q s).2.2 = s
    ∧ (handoff c o q a s).2.2 = s
    ∧ (respond_directly c o q s).2.2 = s
    ∧ (present_specialist_response c o q a t s).2.2 = s
    ∧ (respond c o q s fa).finalSession = s := by
  refine ⟨rfl, ?_, rfl, rfl, ?_⟩
  · unfold handoff
    cases c.agents.lookup a <;> rfl
  · cases fa with
    | some x =>
        exact respondHandle_finalSession c o q s ⟨x, 1, "Agent forced by request"⟩ [] false
    | none =>
        exact respondHandle_finalSession c o q s (route c o q s).1 [routeCall c q s] true

/-- C1 (amended): routing-reply parsing is total; a missing handler line
falls back to the sentinel `"conductor"`; a missing or non-numeric
confidence falls back to 0.5, and any parsed confidence is clamped into
`[0, 1]`; a missing reason line falls back to the default reasoning
`"Default routing"` (capital D), except that when the extracted handler
is unknown to the catalog the validation step overwrites the reasoning
with the handler-not-found message. -/
theorem c1_parse_defaults (agents : List (String × AgentProfile)) (response : String) :
    (searchAgentTag response.data = none →
        (parse_routing_response agents response).agent = "conductor")
    ∧ (searchConfTag response.data = none →
        (parse_routing_response agents response).confidence = 1 / 2)
    ∧ (∀ g, searchConfTag response.data = some g → pyFloat g = none →
        (parse_routing_response agents response).confidence = 1 / 2)
    ∧ 0 ≤ (parse_routing_response agents response).confidence
    ∧ (parse_routing_response agents response).confidence ≤ 1
    ∧ (searchReasonTag response.data = none →
        (parse_routing_response agents response).reasoning = "Default routing"
        ∨ (parse_routing_response agents response).reasoning = notFoundMsg)
    ∧ (searchReasonTag response.data = none → searchAgentTag response.data = none →
        (parse_routing_response agents response).reasoning = "Default routing") := by
  refine ⟨?_, ?_, ?_, ?_, ?_, ?_, ?_⟩
  · intro h
    have hA : extractAgent response = "conductor" := by
      unfold extractAgent
      rw [h]
    show (validateAgent agents (extractAgent response) (extractReasoning response)).1 = _
    rw [hA]
    unfold validateAgent
    simp
  · intro h
    show extractConfidence response = 1 / 2
    unfold extractConfidence
    rw [h]
  · intro g hg hf
    show extractConfidence response = 1 / 2
    unfold extractConfidence
    rw [hg]
    show ((match pyFloat g with
      | some v => max 0 (min 1 v)
      | none => (1 : ℚ) / 2 : ℚ)) = 1 / 2
    rw [hf]
  · show 0 ≤ extractConfidence response
    unfold extractConfidence
    cases searchConfTag response.data with
    | none => norm_num
    | some g =>
        show (0 : ℚ) ≤ ((match pyFloat g with
          | some v => max 0 (min 1 v)
          | none => (1 : ℚ) / 2 : ℚ))
        cases pyFloat g with
        | none => norm_num
        | some v => exact le_max_left (0 : ℚ) _
  · show extractConfidence response ≤ 1
    unfold extractConfidence
    cases searchConfTag response.data with
    | none => norm_num
    | some g =>
        show ((match pyFloat g with
          | some v => max 0 (min 1 v)
          | none => (1 : ℚ) / 2 : ℚ)) ≤ 1
        cases pyFloat g with
        | none => norm_num
        | some v => exact max_le (by norm_num) (min_le_left 1 v)
  · intro h
    have hR : extractReasoning response = "Default routing" := by
      unfold extractReasoning
      rw [h]
    show (validateAgent agents (extractAgent response) (extractReasoning response)).2 = _
        ∨ (validateAgent agents (extractAgent response) (extractReasoning response)).2 = _
    rw [hR]
    unfold validateAgent
    split
    · split
      · exact Or.inl rfl
      · exact Or.inr rfl
    · exact Or.inl rfl
  · intro hR hA
    have hA2 : extractAgent response = "conductor" := by
      unfold extractAgent
      rw [hA]
    have hR2 : extractReasoning response = "Default routing" := by
      unfold extractReasoning
      rw [hR]
    show (validateAgent agents (extractAgent response) (extractReasoning response)).2 = _
    rw [hA2, hR2]
    unfold validateAgent
    simp

/-- C1 witness: the empty reply parses to the full default decision. -/
theorem c1_parse_defaults_witness :
    (parse_routing_response [] ("")).agent = "conductor"
    ∧ (parse_routing_response [] ("")).confidence = 1 / 2
    ∧ (parse_routing_response [] ("")).reasoning = "Default routing" := by
  have h := c1_parse_defaults [] ("")
  exact ⟨h.1 rfl, h.2.1 rfl, h.2.2.2.2.2.2 rfl rfl⟩

/-- C1 counterexample: the code default for the reasoning is
`"Default routing"` with a capital D, not `"default routing"`; and with
a missing reason line but an unknown extracted handler the reasoning is
not the default at all but the handler-not-found fallback, so the
missing reason line does not fall back independently. -/
theorem c1_counterexample :
    parse_routing_response [] ("") = ⟨"conductor", 1 / 2, "Default routing"⟩
    ∧ "Default routing" ≠ "default routing"
    ∧ searchReasonTag (("AGENT: zzz").data) = none
    ∧ (parse_routing_response wCatalogAbc ("AGENT: zzz")).reasoning = notFoundMsg
    ∧ notFoundMsg ≠ "default routing"
    ∧ notFoundMsg ≠ "Default routing" :=
  ⟨rfl, by decide, rfl, rfl, by decide, by decide⟩

/-- C2: when the extracted handler is neither the sentinel nor an exact
catalog key, validation scans the catalog in enumeration order and the
first entry whose identifier contains the extracted string or is
contained by it wins (keeping the reasoning); when no entry matches, the
handler reverts to the sentinel and the reasoning is overwritten with
the handler-not-found fallback message.  Concretely, for the catalog
`ethical-hacker, backend-engineer` and extracted handler `hacker` the
decision resolves to `ethical-hacker`, and with two matching candidates
the first in catalog order wins. -/
theorem c2_fuzzy_validation (agents : List (String × AgentProfile)) (a r : String)
    (h1 : (a == "conductor") = false)
    (h2 : agents.lookup a = none) :
    (∀ kv, fuzzyMatch agents a = some kv →
        validateAgent agents a r = (kv.1, r) ∧ kv ∈ agents ∧ fuzzyPred a kv = true)
    ∧ (fuzzyMatch agents a = none →
        validateAgent agents a r = ("conductor", notFoundMsg))
    ∧ (parse_routing_response wCatalogHack
        ("AGENT: hacker\nCONFIDENCE: 0.9\nREASON: security")).agent = "ethical-hacker"
    ∧ (parse_routing_response wCatalogAB ("AGENT: hacker")).agent = "a-hacker" := by
  have hcond : (a != "conductor" && (agents.lookup a).isNone) = true := by
    simp [bne, h1, h2]
  refine ⟨?_, ?_, rfl, rfl⟩
  · intro kv hkv
    refine ⟨?_, List.mem_of_find?_eq_some hkv, List.find?_some hkv⟩
    unfold validateAgent
    rw [hcond, if_pos rfl, hkv]
  · intro hn
    unfold validateAgent
    rw [hcond, if_pos rfl, hn]

/-- C2 witness: extracted handler `hacker` fuzzy-resolves to the first
containing catalog identifier while keeping the parsed reasoning. -/
theorem c2_fuzzy_validation_witness :
    validateAgent wCatalogHack ("hacker") ("x") = ("ethical-hacker", "x") := by
  have h := c2_fuzzy_validation wCatalogHack ("hacker") ("x") (by decide) (by rfl)
  exact (h.1 ("ethical-hacker", wProfileEth) rfl).1

/-- C3 instance: at a concrete forced call, the route flag is down. -/
theorem c3_forced_bypasses_routing_witness :
    (respond wConductor wOracle ("q") wSession (some ("helper"))).routeInvoked = false :=
  (c3_forced_bypasses_routing wConductor wOracle ("q") wSession ("helper")).1

/-- C5 instance: a concrete routed call hands the session back unchanged. -/
theorem c5_session_frame_witness :
    (respond wConductor wOracle ("q") wSession3 none).finalSession = wSession3 :=
  (c5_session_frame wConductor wOracle ("q") ("helper") ("t") wSession3 none).2.2.2.2

/-- C7 instance: the three-turn fixture round-trips. -/
theorem c7_roundtrip_witness :
    ∃ s2 : Session, from_dict (to_dict wSession3) = .ok s2
      ∧ total_turns s2 = total_turns wSession3
      ∧ total_tokens s2 = total_tokens wSession3
      ∧ s2.context = wSession3.context
      ∧ s2.preferences = wSession3.preferences :=
  c7_roundtrip wSession3
